import Mathlib

/-!
Verification of the Pwnagotchi-plugins repository (RasTacsko).

This file gives a shallow embedding, in Lean, of the parts of the repository
that the behavioural claims talk about:

* `src/eye-dev/eyes.py` — the eye renderer: `draw_eyes` geometry (eye
  dimensions with the "curious" scaling and the `max(2, _)` clamps, the two
  eye rectangles), `get_constraints`, the `look` direction targets, and the
  `look` / `blink` / `close` / `open` animation loops (modelled as fueled
  step functions);
* `src/eyes.py` — `load_config`, `init_screen` and the `on_idle` blink state
  machine;
* `src/OLED-Stats.py` and `src/OLED-Statsv2.py` — `update_stats`,
  `on_ui_update` and `on_unload` of the OLED stats plugins;
* `src/gpiocontrol.py` / `src/gpiocontrol-editing.py` — the rotary-encoder
  rotation handlers;
* `src/gfxhatcontrol.py` — the touch press/release handler.

Python integers are `Int`; Python floats are modelled exactly as `ℚ`
(`time.time()` values, the curious scale factor, the idle blink heights).
Python `//` (floor division) is `Int` division `/` (Euclidean division,
which agrees with floor division for the positive divisors used by the
code), and Python `int(_)` (truncation toward zero) is `pyInt` below.
`sys.exit(1)` is modelled as `Except.error 1`: a computation that
terminates the process with status 1 instead of returning.
-/

/-- Python `int(x)` on a float: truncation toward zero, modelled exactly on
rationals by truncated division of the numerator by the denominator. -/
def pyInt (q : ℚ) : Int := q.num.tdiv q.den

/-! ## eye-dev/eyes.py : configuration and `draw_eyes` geometry -/

/-- The per-eye parameters: `config["eye"]["left"]` / `config["eye"]["right"]`
(`width`, `height`, `roundness`). -/
structure EyeParams where
  width : Int
  height : Int
  roundness : Int
deriving DecidableEq

/-- The merged configuration used by `draw_eyes` / `get_constraints`:
the screen size (`config["screen"]["width"]`/`["height"]`, which is also
the size the luma device is initialised with, so `device.width` =
`screenWidth`), `config["eye"]["distance"]` and the two eyes. -/
structure EyesConfig where
  screenWidth : Int
  screenHeight : Int
  distance : Int
  left : EyeParams
  right : EyeParams
deriving DecidableEq

/-- `DEFAULT_RENDER_CONFIG` merged with `DEFAULT_SCREEN_CONFIG`
(eyes.py lines 18-51): 128x64 screen, distance 10, 36x36 eyes, roundness 8. -/
def defaultRenderConfig : EyesConfig :=
  { screenWidth := 128
    screenHeight := 64
    distance := 10
    left := { width := 36, height := 36, roundness := 8 }
    right := { width := 36, height := 36, roundness := 8 } }

/-- `scale_factor = max_increase / (config["screen"]["width"] // 2)` with
`max_increase = 0.4` (eye-dev/eyes.py lines 214-215). -/
def curiousScaleFactor (cfg : EyesConfig) : ℚ :=
  (0.4 : ℚ) / ((cfg.screenWidth / 2 : Int) : ℚ)

/-- The "curious" adjustment of `draw_eyes` (eye-dev/eyes.py lines 213-225):
given the pre-adjustment widths/heights, bump the outer eye and shrink the
inner one proportionally to `abs(offset_x)`.  Width deltas are computed from
the configured widths, height deltas from the current (blink) heights. -/
def curiousAdjust (cfg : EyesConfig) (offsetX : Int)
    (eyeWidthLeft eyeWidthRight eyeHeightLeft eyeHeightRight : Int) :
    Int × Int × Int × Int :=
  let sf := curiousScaleFactor cfg
  let a : ℚ := ((|offsetX| : Int) : ℚ)
  if offsetX < 0 then
    (eyeWidthLeft + pyInt (sf * a * (cfg.left.width : ℚ)),
     eyeWidthRight - pyInt (sf * a * (cfg.right.width : ℚ)),
     eyeHeightLeft + pyInt (sf * a * (eyeHeightLeft : ℚ)),
     eyeHeightRight - pyInt (sf * a * (eyeHeightRight : ℚ)))
  else if 0 < offsetX then
    (eyeWidthLeft - pyInt (sf * a * (cfg.left.width : ℚ)),
     eyeWidthRight + pyInt (sf * a * (cfg.right.width : ℚ)),
     eyeHeightLeft - pyInt (sf * a * (eyeHeightLeft : ℚ)),
     eyeHeightRight + pyInt (sf * a * (eyeHeightRight : ℚ)))
  else
    (eyeWidthLeft, eyeWidthRight, eyeHeightLeft, eyeHeightRight)

/-- The four `max(2, _)` clamps of `draw_eyes` (eye-dev/eyes.py lines
227-231): "Clamp sizes to ensure no negative or unrealistic dimensions". -/
def clampDims (q : Int × Int × Int × Int) : Int × Int × Int × Int :=
  (max 2 q.1, max 2 q.2.1, max 2 q.2.2.1, max 2 q.2.2.2)

/-- The eye dimensions `(eye_width_left, eye_width_right, eye_height_left,
eye_height_right)` used by `draw_eyes` to draw the rectangles (eye-dev/eyes.py
lines 206-231): base sizes from the config (heights overridden by the blink
heights when given), then the curious adjustment, then the clamps. -/
def eyeDims (cfg : EyesConfig) (offsetX : Int)
    (blinkHeightLeft blinkHeightRight : Option Int) (curious : Bool) :
    Int × Int × Int × Int :=
  let base :=
    (cfg.left.width, cfg.right.width,
     blinkHeightLeft.getD cfg.left.height, blinkHeightRight.getD cfg.right.height)
  clampDims
    (if curious then
       curiousAdjust cfg offsetX base.1 base.2.1 base.2.2.1 base.2.2.2
     else base)

/-- An axis-aligned rectangle `(x0, y0, x1, y1)` as passed to
`draw.rounded_rectangle`. -/
structure Rect where
  x0 : Int
  y0 : Int
  x1 : Int
  y1 : Int
deriving DecidableEq

/-- `left_eye_coords` (eye-dev/eyes.py lines 237-242). -/
def leftEyeRect (cfg : EyesConfig) (offsetX offsetY eyeWidthLeft eyeHeightLeft : Int) : Rect :=
  { x0 := cfg.screenWidth / 2 - eyeWidthLeft - cfg.distance / 2 + offsetX
    y0 := cfg.screenHeight / 2 - eyeHeightLeft / 2 + offsetY
    x1 := cfg.screenWidth / 2 - cfg.distance / 2 + offsetX
    y1 := cfg.screenHeight / 2 + eyeHeightLeft / 2 + offsetY }

/-- `right_eye_coords` (eye-dev/eyes.py lines 243-248). -/
def rightEyeRect (cfg : EyesConfig) (offsetX offsetY eyeWidthRight eyeHeightRight : Int) : Rect :=
  { x0 := cfg.screenWidth / 2 + cfg.distance / 2 + offsetX
    y0 := cfg.screenHeight / 2 - eyeHeightRight / 2 + offsetY
    x1 := cfg.screenWidth / 2 + eyeWidthRight + cfg.distance / 2 + offsetX
    y1 := cfg.screenHeight / 2 + eyeHeightRight / 2 + offsetY }

/-- The pair of eye rectangles a single `draw_eyes` frame draws, as a function
of the offsets, blink heights and curious flag (eye-dev/eyes.py lines
206-251). -/
def drawEyesRects (cfg : EyesConfig) (offsetX offsetY : Int)
    (blinkHeightLeft blinkHeightRight : Option Int) (curious : Bool) : Rect × Rect :=
  let d := eyeDims cfg offsetX blinkHeightLeft blinkHeightRight curious
  (leftEyeRect cfg offsetX offsetY d.1 d.2.2.1,
   rightEyeRect cfg offsetX offsetY d.2.1 d.2.2.2)

/-- The movement constraints of `get_constraints` (eye-dev/eyes.py lines
511-543). -/
structure Constraints where
  minXOffset : Int
  maxXOffset : Int
  minYOffset : Int
  maxYOffset : Int
deriving DecidableEq

/-- `get_constraints(config, device)` (eye-dev/eyes.py lines 529-536). -/
def get_constraints (cfg : EyesConfig) : Constraints :=
  { minXOffset := -(cfg.screenWidth / 2 - cfg.distance / 2 - cfg.left.width)
    maxXOffset := cfg.screenWidth / 2 - cfg.distance / 2 - cfg.right.width
    minYOffset := -(cfg.screenHeight / 2 - (max cfg.left.height cfg.right.height) / 2)
    maxYOffset := cfg.screenHeight / 2 - (max cfg.left.height cfg.right.height) / 2 }

/-- An offset pair lies within the movement constraints. -/
def withinConstraints (c : Constraints) (x y : Int) : Prop :=
  c.minXOffset ≤ x ∧ x ≤ c.maxXOffset ∧ c.minYOffset ≤ y ∧ y ≤ c.maxYOffset

instance (c : Constraints) (x y : Int) : Decidable (withinConstraints c x y) := by
  unfold withinConstraints; infer_instance

/-- A rectangle lies entirely inside the screen area
`[0, screenWidth] x [0, screenHeight]`. -/
def rectOnScreen (cfg : EyesConfig) (r : Rect) : Prop :=
  0 ≤ r.x0 ∧ r.x1 ≤ cfg.screenWidth ∧ 0 ≤ r.y0 ∧ r.y1 ≤ cfg.screenHeight

/-- The target offsets `look` selects from its direction argument
(eye-dev/eyes.py lines 576-603); every string other than the eight cardinal
directions falls through to the centre `(0, 0)`. -/
def lookTarget (cfg : EyesConfig) (direction : String) (currentX currentY : Int) :
    Int × Int :=
  let c := get_constraints cfg
  if direction = "L" then (c.minXOffset, currentY)
  else if direction = "R" then (c.maxXOffset, currentY)
  else if direction = "T" then (currentX, c.minYOffset)
  else if direction = "B" then (currentX, c.maxYOffset)
  else if direction = "TL" then (c.minXOffset, c.minYOffset)
  else if direction = "TR" then (c.maxXOffset, c.minYOffset)
  else if direction = "BL" then (c.minXOffset, c.maxYOffset)
  else if direction = "BR" then (c.maxXOffset, c.maxYOffset)
  else (0, 0)

/-! ## eye-dev/eyes.py : the animation loops inside `draw_eyes`

Each `while` loop of `draw_eyes` is modelled as a fueled recursion over the
mutable loop state; `some s` means the loop exited (by its `break` / guard)
with final state `s` within the given number of iterations, `none` means it
was still running when the fuel ran out. -/

/-- `{"fast": 8, "medium": 4, "slow": 2}.get(speed, 4)` — the look animation
speed (eye-dev/eyes.py line 320). -/
def lookMovementSpeed (speed : String) : Int :=
  if speed = "fast" then 8
  else if speed = "medium" then 4
  else if speed = "slow" then 2
  else 4

/-- `{"fast": 12, "medium": 8, "slow": 4}.get(speed, 4)` — the blink / close /
open animation speed (eye-dev/eyes.py lines 347, 435, 475). -/
def blinkMovementSpeed (speed : String) : Int :=
  if speed = "fast" then 12
  else if speed = "medium" then 8
  else if speed = "slow" then 4
  else 4

/-- One iteration of the look loop body (eye-dev/eyes.py lines 322-330):
move each offset toward its target by at most `mv`. -/
def lookStep (mv targetX targetY cx cy : Int) : Int × Int :=
  let nx :=
    if cx < targetX then min (cx + mv) targetX
    else if targetX < cx then max (cx - mv) targetX
    else cx
  let ny :=
    if cy < targetY then min (cy + mv) targetY
    else if targetY < cy then max (cy - mv) targetY
    else cy
  (nx, ny)

/-- The look loop (eye-dev/eyes.py lines 321-333): `while` the offsets differ
from the targets, step toward them and draw a frame. -/
def lookLoop (mv targetX targetY : Int) : Nat → Int → Int → Option (Int × Int)
  | 0, cx, cy => if cx = targetX ∧ cy = targetY then some (cx, cy) else none
  | fuel + 1, cx, cy =>
    if cx = targetX ∧ cy = targetY then some (cx, cy)
    else
      let s := lookStep mv targetX targetY cx cy
      lookLoop mv targetX targetY fuel s.1 s.2

/-- `eye in ["both", "left"]` (the left-eye guard of the blink/close/open
loops). -/
def eyeTargetsLeft (eye : String) : Prop := eye ∈ (["both", "left"] : List String)

/-- `eye in ["both", "right"]`. -/
def eyeTargetsRight (eye : String) : Prop := eye ∈ (["both", "right"] : List String)

instance (eye : String) : Decidable (eyeTargetsLeft eye) := by
  unfold eyeTargetsLeft; infer_instance

instance (eye : String) : Decidable (eyeTargetsRight eye) := by
  unfold eyeTargetsRight; infer_instance

/-- The blink loop of `draw_eyes` (eye-dev/eyes.py lines 349-408).  State:
blink direction (`-1` closing, `1` opening) and the two blink heights.
Returns the heights at the `break`. -/
def blinkLoop (mv origL origR : Int) (eye : String) :
    Nat → Int → Int → Int → Option (Int × Int)
  | 0, _, _, _ => none
  | fuel + 1, dir, bl, br =>
    if dir = -1 then
      -- closing phase: shrink each selected eye, floor at 1
      let bl := if eyeTargetsLeft eye then max 1 (bl - mv) else bl
      let br := if eyeTargetsRight eye then max 1 (br - mv) else br
      let dir :=
        if (eyeTargetsLeft eye ∧ bl ≤ 1) ∧ (eyeTargetsRight eye ∧ br ≤ 1) then 1 else dir
      let dir := if eye = "left" ∧ bl ≤ 1 then 1 else dir
      let dir := if eye = "right" ∧ br ≤ 1 then 1 else dir
      blinkLoop mv origL origR eye fuel dir bl br
    else if dir = 1 then
      -- opening phase: grow each selected eye, clamp at the original height
      let bl :=
        if eyeTargetsLeft eye then (if origL ≤ bl + mv then origL else bl + mv) else bl
      let br :=
        if eyeTargetsRight eye then (if origR ≤ br + mv then origR else br + mv) else br
      if (eyeTargetsLeft eye ∧ origL ≤ bl) ∧ (eyeTargetsRight eye ∧ origR ≤ br) then
        some (bl, br)
      else if eye = "left" ∧ origL ≤ bl then some (bl, br)
      else if eye = "right" ∧ origR ≤ br then some (bl, br)
      else blinkLoop mv origL origR eye fuel dir bl br
    else blinkLoop mv origL origR eye fuel dir bl br

/-- After the blink loop exits, `draw_eyes` draws one final frame at exactly
the configured original heights (eye-dev/eyes.py lines 410-420). -/
def blinkFinalFrameHeights (cfg : EyesConfig) : Int × Int :=
  (cfg.left.height, cfg.right.height)

/-- The close loop of `draw_eyes` (eye-dev/eyes.py lines 436-459): shrink the
selected eyes (floor 1), draw, and `break` once
`(bl <= 1 and eye in ["both", "left"]) and (br <= 1 and eye in ["both", "right"])`. -/
def closeLoop (mv : Int) (eye : String) : Nat → Int → Int → Option (Int × Int)
  | 0, _, _ => none
  | fuel + 1, bl, br =>
    let bl := if eyeTargetsLeft eye then max 1 (bl - mv) else bl
    let br := if eyeTargetsRight eye then max 1 (br - mv) else br
    if (bl ≤ 1 ∧ eyeTargetsLeft eye) ∧ (br ≤ 1 ∧ eyeTargetsRight eye) then some (bl, br)
    else closeLoop mv eye fuel bl br

/-- The open loop of `draw_eyes` (eye-dev/eyes.py lines 477-506): grow the
selected eyes (clamped at the original heights), draw, and exit once
`(origL <= bl and eye in ["both", "left"]) and (origR <= br and eye in ["both", "right"])`. -/
def openLoop (mv origL origR : Int) (eye : String) :
    Nat → Int → Int → Option (Int × Int)
  | 0, _, _ => none
  | fuel + 1, bl, br =>
    let bl :=
      if eyeTargetsLeft eye then (if origL ≤ bl + mv then origL else bl + mv) else bl
    let br :=
      if eyeTargetsRight eye then (if origR ≤ br + mv then origR else br + mv) else br
    if (origL ≤ bl ∧ eyeTargetsLeft eye) ∧ (origR ≤ br ∧ eyeTargetsRight eye) then
      some (bl, br)
    else openLoop mv origL origR eye fuel bl br

/-! ## eyes.py : the `on_idle` blink state machine -/

/-- The mutable state of `on_idle` (eyes.py lines 137-148).  The blink
heights are Python floats (the left increment divides the two configured
heights), modelled exactly as rationals. -/
structure IdleState where
  offsetX : Int
  offsetY : Int
  targetX : Int
  targetY : Int
  blinkHeightLeft : ℚ
  blinkHeightRight : ℚ
  blinkDirection : Int
  blinking : Bool

/-- One iteration of the `on_idle` loop (eyes.py lines 155-183), with the
calls to `random` turned into explicit inputs: `randTX`/`randTY` are the
`random.randint` results used when a new idle target is picked and
`randBlink` is `random.random() < 0.01`.  `MOVEMENT_SPEED = 1` and
`BLINK_SPEED = 2`. -/
def onIdleStep (origL origR : ℚ) (randTX randTY : Int) (randBlink : Bool)
    (s : IdleState) : IdleState :=
  let retarget := s.offsetX = s.targetX ∧ s.offsetY = s.targetY
  let tx := if retarget then randTX else s.targetX
  let ty := if retarget then randTY else s.targetY
  let ox := if s.offsetX = tx then s.offsetX else if s.offsetX < tx then s.offsetX + 1 else s.offsetX - 1
  let oy := if s.offsetY = ty then s.offsetY else if s.offsetY < ty then s.offsetY + 1 else s.offsetY - 1
  if s.blinking then
    let bl := s.blinkHeightLeft + (s.blinkDirection : ℚ) * 2 * (origL / origR)
    let br := s.blinkHeightRight + (s.blinkDirection : ℚ) * 2
    if bl ≤ 2 ∨ br ≤ 2 then
      { offsetX := ox, offsetY := oy, targetX := tx, targetY := ty
        blinkHeightLeft := bl, blinkHeightRight := br
        blinkDirection := 1, blinking := true }
    else if origL ≤ bl ∧ origR ≤ br then
      { offsetX := ox, offsetY := oy, targetX := tx, targetY := ty
        blinkHeightLeft := origL, blinkHeightRight := origR
        blinkDirection := s.blinkDirection, blinking := false }
    else
      { offsetX := ox, offsetY := oy, targetX := tx, targetY := ty
        blinkHeightLeft := bl, blinkHeightRight := br
        blinkDirection := s.blinkDirection, blinking := true }
  else if randBlink then
    { offsetX := ox, offsetY := oy, targetX := tx, targetY := ty
      blinkHeightLeft := s.blinkHeightLeft, blinkHeightRight := s.blinkHeightRight
      blinkDirection := -1, blinking := true }
  else
    { offsetX := ox, offsetY := oy, targetX := tx, targetY := ty
      blinkHeightLeft := s.blinkHeightLeft, blinkHeightRight := s.blinkHeightRight
      blinkDirection := s.blinkDirection, blinking := s.blinking }

/-! ## TOML configuration loading (eyes.py / eye-dev/eyes.py) -/

/-- A TOML value: a scalar or a nested table (an association list, as
`toml.load` produces a dict). -/
inductive TomlVal where
  | str : String → TomlVal
  | int : Int → TomlVal
  | table : List (String × TomlVal) → TomlVal

/-- The result of opening and parsing a TOML file: the file is missing
(`FileNotFoundError`), unreadable/unparsable (any other exception), or parses
to a top-level table. -/
inductive FileReadResult where
  | missing
  | unreadable
  | ok : List (String × TomlVal) → FileReadResult

/-- Python `{**d, **c}`: the keys of `d` in order (values overridden by `c`
where `c` has the same key), followed by the keys of `c` not in `d`.  The
merge is shallow: a value of `c` replaces the whole value of `d` at that
key. -/
def pyDictMerge {α : Type} (d c : List (String × α)) : List (String × α) :=
  d.map (fun p =>
    match c.lookup p.1 with
    | some v => (p.1, v)
    | none => p)
  ++ c.filter (fun q => (d.lookup q.1).isNone)

/-- `load_config(file_path, default_config)` of eye-dev/eyes.py (lines
60-78): merge `{**default_config, **config}` on success, fall back to the
default configuration when the file is missing, and log + `sys.exit(1)` on
any other error. -/
def load_config (fr : FileReadResult) (defaultConfig : List (String × TomlVal)) :
    Except Nat (List (String × TomlVal)) :=
  match fr with
  | .ok config => .ok (pyDictMerge defaultConfig config)
  | .missing => .ok defaultConfig
  | .unreadable => .error 1

/-- `load_config(file_path)` of eyes.py (lines 19-33): return the parsed
table, and log + `sys.exit(1)` on any exception (a missing file included —
there is no `FileNotFoundError` case here). -/
def eyes_load_config (fr : FileReadResult) : Except Nat (List (String × TomlVal)) :=
  match fr with
  | .ok config => .ok config
  | .missing => .error 1
  | .unreadable => .error 1

/-- Whether the hardware bring-up of `init_screen` (eyes.py lines 36-77)
succeeds; the serial/driver construction itself is hardware glue and is
abstracted to its outcome. -/
inductive ScreenInitResult where
  | success
  | failure

/-- `init_screen(config)` of eyes.py (lines 36-77): return the device on
success, log + `sys.exit(1)` on any exception. -/
def init_screen (r : ScreenInitResult) : Except Nat Unit :=
  match r with
  | .success => .ok ()
  | .failure => .error 1

/-! ## OLED-Stats.py : the stats cache and the plugin state machine -/

/-- The fields read by `os.statvfs` that `update_stats` uses. -/
structure DiskStat where
  frsize : Int
  blocks : Int
  bfree : Int

/-- The environment a single `update_stats` call reads, in the order the
`try` block reads it.  `none` means that read raises: the exception aborts
the rest of the block (it is caught and logged by `update_stats`), so every
field after the first `none` is ignored. -/
structure StatsEnv where
  cpuLoad : Option ℚ
  memUsage : Option ℚ
  temperature : Option Int
  disk : Option DiskStat
  ipOutput : Option String
  dateTime : Option (String × String)

/-- The cached system stats of `OLEDStats` (OLED-Stats.py lines 33-38,
93-95). -/
structure StatsCache where
  cpu : String
  mem : String
  temp : String
  disk : String
  diskGB : String
  ipAddresses : List String
  dateStr : String
  timeStr : String
deriving DecidableEq

/-- `f"{int(q)}%"`. -/
def formatPercent (q : ℚ) : String := toString (pyInt q) ++ "%"

/-- `update_stats` (OLED-Stats.py lines 69-99): refresh each cached field in
turn from the environment; a raised exception leaves that field and all later
fields at their previous values (the `except` clause only logs). -/
def update_stats (env : StatsEnv) (s : StatsCache) : StatsCache :=
  match env.cpuLoad with
  | none => s
  | some c =>
    let s := { s with cpu := formatPercent (c * 100) }
    match env.memUsage with
    | none => s
    | some m =>
      let s := { s with mem := formatPercent (m * 100) }
      match env.temperature with
      | none => s
      | some t =>
        let s := { s with temp := toString t ++ "C" }
        match env.disk with
        | none => s
        | some d =>
          let totalDisk := d.frsize * d.blocks
          let freeDisk := d.frsize * d.bfree
          let usedDisk := totalDisk - freeDisk
          let pct : ℚ := (usedDisk : ℚ) / (totalDisk : ℚ) * 100
          let totalGB : ℚ := (totalDisk : ℚ) / (1024 ^ 3)
          let freeGB : ℚ := (freeDisk : ℚ) / (1024 ^ 3)
          let s := { s with
            disk := formatPercent pct
            diskGB := toString (pyInt freeGB) ++ "/" ++ toString (pyInt totalGB) ++ "GB free" }
          match env.ipOutput with
          | none => s
          | some out =>
            let s := { s with
              ipAddresses := if out ≠ "" then out.splitOn " " else ["Unavailable"] }
            match env.dateTime with
            | none => s
            | some dt => { s with dateStr := dt.1, timeStr := dt.2 }

/-- A drawing primitive recorded on one of the PIL images:
`draw.rectangle((x0, y0, x1, y1), outline, fill)` or
`draw.text((x, y), content, fill)`. -/
inductive DrawOp where
  | rect : Int → Int → Int → Int → Nat → Nat → DrawOp
  | text : Int → Int → String → Nat → DrawOp
deriving DecidableEq

/-- `chr(n)` for the icon-font glyphs. -/
def chrStr (n : Nat) : String := String.singleton (Char.ofNat n)

/-- A command sent to the hardware displays. -/
inductive DisplayCmd where
  | display1 : List DrawOp → DisplayCmd
  | display2 : List DrawOp → DisplayCmd
  | clear1
  | clear2
  | sleep1
  | sleep2
deriving DecidableEq

/-- The `main.plugins.OLED-Stats.color` option (OLED-Stats.py lines 109-128):
`"auto"`, `"light"`, or anything else (dark / unset). -/
inductive ColorOpt where
  | auto
  | light
  | other

/-- The fill/background colours chosen at the top of `on_ui_update`
(OLED-Stats.py lines 110-128). -/
def computeColors (c : ColorOpt) (hour : Nat) : Nat × Nat :=
  match c with
  | .auto => if 6 ≤ hour ∧ hour < 17 then (0, 255) else (255, 0)
  | .light => (0, 255)
  | .other => (255, 0)

/-- The plugin state of `OLEDStats` (OLED-Stats.py `__init__`, lines 21-67):
the `active` flag, the rotating screen/IP indices, the last-update timestamp,
the stats cache, the current colours, and the two PIL images (modelled as the
log of drawing operations applied to them). -/
structure OledState where
  active : Bool
  screenIndex : Nat
  ipIndex : Nat
  lastUpdate : ℚ
  stats : StatsCache
  fillColor : Nat
  bgColor : Nat
  image1 : List DrawOp
  image2 : List DrawOp

/-- `self.WIDTH` (OLED-Stats.py line 24). -/
def oledWidth : Int := 128

/-- `self.HEIGHT` (OLED-Stats.py line 25). -/
def oledHeight : Int := 64

/-- `self.screen_update_interval = 5` (OLED-Stats.py line 30). -/
def screenUpdateInterval : ℚ := 5

/-- The drawing operations applied to image 1 during an update tick
(OLED-Stats.py lines 141, 146-182): clear, the four icon cells, and the
stat of the current screen. -/
def renderScreen1 (fc bc : Nat) (si : Nat) (stats : StatsCache) : List DrawOp :=
  let cpuFill := if si = 0 then fc else bc
  let tempFill := if si = 1 then fc else bc
  let memFill := if si = 2 then fc else bc
  let diskFill := if si = 3 then fc else bc
  let cpuBg := if si = 0 then bc else fc
  let tempBg := if si = 1 then bc else fc
  let memBg := if si = 2 then bc else fc
  let diskBg := if si = 3 then bc else fc
  [DrawOp.rect 0 0 oledWidth oledHeight 0 bc,
   DrawOp.rect 0 0 15 15 cpuBg cpuBg, DrawOp.text 0 1 (chrStr 62171) cpuFill,
   DrawOp.rect 0 16 15 33 tempBg tempBg, DrawOp.text 0 17 (chrStr 62609) tempFill,
   DrawOp.rect 0 34 15 47 memBg memBg, DrawOp.text 0 33 (chrStr 62776) memFill,
   DrawOp.rect 0 48 15 63 diskBg diskBg, DrawOp.text 0 49 (chrStr 63426) diskFill]
  ++ (if si = 0 then [DrawOp.text 19 0 "CPU" fc, DrawOp.text 26 10 stats.cpu fc]
      else if si = 1 then [DrawOp.text 19 0 "TEMP" fc, DrawOp.text 26 10 stats.temp fc]
      else if si = 2 then [DrawOp.text 19 0 "RAM" fc, DrawOp.text 26 10 stats.mem fc]
      else if si = 3 then
        [DrawOp.text 19 0 "HDD" fc, DrawOp.text 26 10 stats.disk fc,
         DrawOp.text 19 49 stats.diskGB fc]
      else [])

/-- The drawing operations applied to image 2 during an update tick
(OLED-Stats.py lines 142, 184-194): clear, date and time, the Wi-Fi icon and
the current IP address. -/
def renderScreen2 (fc bc : Nat) (stats : StatsCache) (ipIdx : Nat) : List DrawOp :=
  [DrawOp.rect 0 0 oledWidth oledHeight 0 bc,
   DrawOp.text 19 0 stats.dateStr fc, DrawOp.text 19 10 stats.timeStr fc,
   DrawOp.rect 0 48 15 63 bc bc, DrawOp.text 0 49 (chrStr 61931) fc,
   DrawOp.text 19 49 (stats.ipAddresses.getD ipIdx "") fc]

/-- The inputs one `on_ui_update` call reads: the `color` option, the current
hour, `time.time()`, and the readings a stats refresh would use. -/
structure UiInput where
  colorOpt : ColorOpt
  hour : Nat
  now : ℚ
  env : StatsEnv

/-- `on_ui_update` (OLED-Stats.py lines 105-200).  Returns the new plugin
state and the display commands sent.  Inactive: return immediately.  Active:
set the colours; if at least `screen_update_interval` seconds have elapsed,
refresh the stats, advance the screen index mod 4 and the IP index mod the
number of cached addresses, redraw both images and push them to the screens;
otherwise do nothing more. -/
def on_ui_update (inp : UiInput) (s : OledState) : OledState × List DisplayCmd :=
  if s.active = false then (s, [])
  else
    let colors := computeColors inp.colorOpt inp.hour
    let s := { s with fillColor := colors.1, bgColor := colors.2 }
    if screenUpdateInterval ≤ inp.now - s.lastUpdate then
      let stats := update_stats inp.env s.stats
      let si := (s.screenIndex + 1) % 4
      let ii := (s.ipIndex + 1) % stats.ipAddresses.length
      let img1 := s.image1 ++ renderScreen1 colors.1 colors.2 si stats
      let img2 := s.image2 ++ renderScreen2 colors.1 colors.2 stats ii
      ({ s with stats := stats, screenIndex := si, ipIndex := ii,
                lastUpdate := inp.now, image1 := img1, image2 := img2 },
       [DisplayCmd.display1 img1, DisplayCmd.display2 img2])
    else (s, [])

/-- `on_unload` (OLED-Stats.py lines 202-208): clear the `active` flag, black
out both images and push them to the screens one last time. -/
def on_unload (s : OledState) : OledState × List DisplayCmd :=
  let img1 := s.image1 ++ [DrawOp.rect 0 0 oledWidth oledHeight 0 0]
  let img2 := s.image2 ++ [DrawOp.rect 0 0 oledWidth oledHeight 0 0]
  ({ s with active := false, image1 := img1, image2 := img2 },
   [DisplayCmd.display1 img1, DisplayCmd.display2 img2])

/-! ## OLED-Statsv2.py : the v2 plugin state machine -/

/-- The plugin state of the v2 `OLEDStats` (OLED-Statsv2.py lines 16-52). -/
structure V2State where
  active : Bool
  image1 : List DrawOp
  image2 : List DrawOp

/-- The values one v2 `on_ui_update` call reads from `psutil` / `datetime`
(OLED-Statsv2.py lines 65-82, 101-104), already formatted. -/
structure V2Env where
  ip : String
  cpu : String
  mem : String
  disk : String
  temp : String
  dateStr : String
  timeStr : String

/-- v2 `on_ui_update` (OLED-Statsv2.py lines 54-109).  Inactive: return
immediately.  Active: clear image 1 and draw the five icons (lines 58,
85-89); the very next statement, `str(CPU, ...)` with an encoding (line 91), calls `str`
with an encoding on a value that is already a `str`, which raises
`TypeError`, so the call aborts there: nothing is displayed and image 2 is
untouched.  The third component records the exception, `none` meaning a
normal return. -/
def v2_on_ui_update (_env : V2Env) (s : V2State) :
    V2State × List DisplayCmd × Option String :=
  if s.active = false then (s, [], none)
  else
    let img1 := s.image1 ++
      [DrawOp.rect 0 0 oledWidth oledHeight 0 0,
       DrawOp.text 0 5 (chrStr 62171) 255, DrawOp.text 65 5 (chrStr 62609) 255,
       DrawOp.text 0 25 (chrStr 62776) 255, DrawOp.text 65 25 (chrStr 63426) 255,
       DrawOp.text 0 45 (chrStr 61931) 255]
    ({ s with image1 := img1 }, [], some "TypeError: decoding str is not supported")

/-- v2 `on_unload` (OLED-Statsv2.py lines 111-129): clear the `active` flag,
clear both displays and put them to sleep. -/
def v2_on_unload (s : V2State) : V2State × List DisplayCmd :=
  ({ s with active := false },
   [DisplayCmd.clear1, DisplayCmd.clear2, DisplayCmd.sleep1, DisplayCmd.sleep2])

/-! ## gpiocontrol.py / gpiocontrol-editing.py : rotary-encoder rotation -/

/-- `on_encoder_rotate` of gpiocontrol.py (lines 75-84): compare the
*cumulative* step counter of the encoder against zero — `steps > 0` runs the up
command, `steps < 0` the down command.  The result is the list of shell
commands dispatched by this event. -/
def on_encoder_rotate (steps : Int) (upCmd downCmd : String) : List String :=
  if 0 < steps then [upCmd]
  else if steps < 0 then [downCmd]
  else []

/-- `on_encoder_rotate` of gpiocontrol-editing.py (lines 81-90): compare the
current step counter against the one recorded at the previous event, then
record the current one.  Returns the dispatched commands and the new
`previous_step`. -/
def on_encoder_rotate_editing (previousStep currentStep : Int)
    (upCmd downCmd : String) : List String × Int :=
  if previousStep < currentStep then ([upCmd], currentStep)
  else if currentStep < previousStep then ([downCmd], currentStep)
  else ([], currentStep)

/-- Modelled from the spec: the claimed dispatch rule for a rotation event —
run the up command exactly when the reported step count increased relative to
the previous event, the down command exactly when it decreased.  Stated for
comparison with the two `on_encoder_rotate` implementations. -/
def encoderClaimSpec (previousStep currentStep : Int) (upCmd downCmd : String) :
    List String :=
  if previousStep < currentStep then [upCmd]
  else if currentStep < previousStep then [downCmd]
  else []

/-! ## gfxhatcontrol.py : touch events -/

/-- An effect of the touch handler: an LED change or a dispatched shell
command. -/
inductive TouchAction where
  | setLed : Nat → Nat → TouchAction
  | run : String → TouchAction
deriving DecidableEq

/-- `runcommand` of gfxhatcontrol.py (lines 18-23): dispatch the command only
if it is truthy (`if command:`), i.e. present and non-empty. -/
def runcommand (cmd : Option String) : List TouchAction :=
  match cmd with
  | none => []
  | some c => if c = "" then [] else [TouchAction.run c]

/-- `on_touch_event` (gfxhatcontrol.py lines 59-78).  `holdTimes` is
`self.button_hold_times` (an association list keyed by button name, newest
entry first).  A press records the timestamp and lights the LED; a release
computes `hold_time = now - button_hold_times.get(name, 0)`, turns the LED
off, and dispatches the long-press command when `hold_time >= 1.0` and the
short-press command otherwise.  Returns the updated timestamps and the
effects in order. -/
def on_touch_event (holdTimes : List (String × ℚ)) (now : ℚ) (buttonIndex : Nat)
    (buttonName : String) (event : String) (shortCmd longCmd : Option String) :
    List (String × ℚ) × List TouchAction :=
  if event = "press" then
    ((buttonName, now) :: holdTimes, [TouchAction.setLed buttonIndex 1])
  else if event = "release" then
    let holdTime := now - ((holdTimes.lookup buttonName).getD 0)
    if (1 : ℚ) ≤ holdTime then
      (holdTimes, TouchAction.setLed buttonIndex 0 :: runcommand longCmd)
    else
      (holdTimes, TouchAction.setLed buttonIndex 0 :: runcommand shortCmd)
  else
    (holdTimes, [])

/-! ## Concrete sample values used to instantiate the theorems -/

/-- The initial stats cache of `OLEDStats.__init__` (OLED-Stats.py lines
33-38) before the first refresh. -/
def initialStatsCache : StatsCache :=
  { cpu := "N/A", mem := "N/A", temp := "N/A", disk := "N/A", diskGB := "N/A"
    ipAddresses := ["N/A"], dateStr := "", timeStr := "" }

/-- A plugin state as after `__init__`: active, indices zero, last update at
time 0. -/
def sampleOledState : OledState :=
  { active := true, screenIndex := 0, ipIndex := 0, lastUpdate := 0
    stats := initialStatsCache, fillColor := 255, bgColor := 0
    image1 := [], image2 := [] }

/-- An environment in which the very first read of a stats refresh raises. -/
def failingStatsEnv : StatsEnv :=
  { cpuLoad := none, memUsage := none, temperature := none
    disk := none, ipOutput := none, dateTime := none }

/-- An `on_ui_update` input at `time.time() = 10` with the default (dark)
colour option. -/
def sampleUiInput : UiInput :=
  { colorOpt := ColorOpt.other, hour := 12, now := 10, env := failingStatsEnv }

/-- An idle-animation state one frame before a blink completes (heights 35 of
36, opening). -/
def idleWitnessState : IdleState :=
  { offsetX := 0, offsetY := 0, targetX := 0, targetY := 0
    blinkHeightLeft := 35, blinkHeightRight := 35
    blinkDirection := 1, blinking := true }

/-- A default configuration table with a nested `screen` table holding two
keys. -/
def witnessDefaultCfg : List (String × TomlVal) :=
  [("screen", TomlVal.table
      [("type", TomlVal.str "oled"), ("width", TomlVal.int 128)])]

/-- A loaded configuration table whose `screen` table holds only one key. -/
def witnessLoadedCfg : List (String × TomlVal) :=
  [("screen", TomlVal.table [("type", TomlVal.str "lcd")])]

/-! ## Helper facts about the eye-selection guards -/

theorem both_targets_left : eyeTargetsLeft "both" := by decide

theorem both_targets_right : eyeTargetsRight "both" := by decide

theorem both_ne_left : ("both" : String) ≠ "left" := by decide

theorem both_ne_right : ("both" : String) ≠ "right" := by decide

theorem left_not_targets_right : ¬ eyeTargetsRight "left" := by decide

theorem right_not_targets_left : ¬ eyeTargetsLeft "right" := by decide

/-- The close loop with `eye="left"` never reaches its break: the break
condition conjoins `eye in ["both", "right"]`, which is false. -/
theorem closeLoop_left_none (mv : Int) :
    ∀ fuel bl br, closeLoop mv "left" fuel bl br = none := by
  intro fuel
  induction fuel with
  | zero => intro bl br; rfl
  | succ n ih =>
    intro bl br
    simp only [closeLoop, left_not_targets_right, and_false, false_and, if_false,
      ite_false, eq_self_iff_true]
    exact ih _ _

/-- The close loop with `eye="right"` never reaches its break: the break
condition conjoins `eye in ["both", "left"]`, which is false. -/
theorem closeLoop_right_none (mv : Int) :
    ∀ fuel bl br, closeLoop mv "right" fuel bl br = none := by
  intro fuel
  induction fuel with
  | zero => intro bl br; rfl
  | succ n ih =>
    intro bl br
    simp only [closeLoop, right_not_targets_left, and_false, false_and, if_false,
      ite_false, eq_self_iff_true]
    exact ih _ _

/-- The open loop with `eye="left"` never reaches its exit condition. -/
theorem openLoop_left_none (mv origL origR : Int) :
    ∀ fuel bl br, openLoop mv origL origR "left" fuel bl br = none := by
  intro fuel
  induction fuel with
  | zero => intro bl br; rfl
  | succ n ih =>
    intro bl br
    simp only [openLoop, left_not_targets_right, and_false, false_and, if_false,
      ite_false, eq_self_iff_true]
    exact ih _ _

/-- The open loop with `eye="right"` never reaches its exit condition. -/
theorem openLoop_right_none (mv origL origR : Int) :
    ∀ fuel bl br, openLoop mv origL origR "right" fuel bl br = none := by
  intro fuel
  induction fuel with
  | zero => intro bl br; rfl
  | succ n ih =>
    intro bl br
    simp only [openLoop, right_not_targets_left, and_false, false_and, if_false,
      ite_false, eq_self_iff_true]
    exact ih _ _

/-- Claim C1: the claim states that for every speed and every eye selection
the look, blink, close and open loops of `draw_eyes` terminate after finitely
many frames.  This is FALSE for the close and open loops with a single eye
selected (`eye="left"` or `eye="right"`): their break conditions require
`eye in ["both", "left"]` AND `eye in ["both", "right"]` simultaneously
(eye-dev/eyes.py lines 455-457 and 502-505 — unlike the blink loop, which has
dedicated single-eye break clauses at lines 367-370 and 392-395), so for a
single-eye close/open the condition is identically false and the loop never
exits: for every movement speed, every fuel bound and every starting heights,
the fueled model is still running (`none`) when the fuel runs out. -/
theorem close_open_single_eye_never_terminates (mv origL origR : Int)
    (fuel : Nat) (bl br : Int) :
    closeLoop mv "left" fuel bl br = none ∧
    closeLoop mv "right" fuel bl br = none ∧
    openLoop mv origL origR "left" fuel bl br = none ∧
    openLoop mv origL origR "right" fuel bl br = none :=
  ⟨closeLoop_left_none mv fuel bl br, closeLoop_right_none mv fuel bl br,
   openLoop_left_none mv origL origR fuel bl br,
   openLoop_right_none mv origL origR fuel bl br⟩

/-! ## Claim C2 : rotary-encoder dispatch -/

/-- Claim C2 counterexample: with the previous event at step count 5 and the
current event at step count 3 (a decrease, i.e. counterclockwise rotation),
`on_encoder_rotate` of gpiocontrol.py runs the UP command — it compares the
cumulative step counter against zero, not against the previous event — while
the claimed rule dispatches the down command. -/
theorem on_encoder_rotate_ignores_previous_step :
    on_encoder_rotate 3 "up" "down" = ["up"] ∧
    encoderClaimSpec 5 3 "up" "down" = ["down"] ∧
    on_encoder_rotate 3 "up" "down" ≠ encoderClaimSpec 5 3 "up" "down" := by
  refine ⟨rfl, rfl, by decide⟩

/-- Claim C2 (amended): the gpiocontrol-editing.py handler dispatches exactly
per the claimed rule — up when the reported step count increased relative to
the previous event, down when it decreased — and records the current count;
the gpiocontrol.py handler instead compares the cumulative step counter to
zero, i.e. behaves as the claimed rule would with the previous count pinned
at 0. -/
theorem encoder_rotate_dispatch (previousStep currentStep : Int)
    (upCmd downCmd : String) :
    (on_encoder_rotate_editing previousStep currentStep upCmd downCmd).1 =
      encoderClaimSpec previousStep currentStep upCmd downCmd ∧
    (on_encoder_rotate_editing previousStep currentStep upCmd downCmd).2 =
      currentStep ∧
    on_encoder_rotate currentStep upCmd downCmd =
      encoderClaimSpec 0 currentStep upCmd downCmd := by
  unfold on_encoder_rotate_editing encoderClaimSpec on_encoder_rotate
  refine ⟨?_, ?_, ?_⟩ <;> split_ifs <;> rfl

/-! ## Claim C3 : error handling -/

/-- Claim C3 counterexample: a failed configuration load does more than
catch-and-log — `load_config` of eyes.py terminates the process with
`sys.exit(1)` on any exception (a missing file included), as do the eye-dev
loader on a parse error and `init_screen`; the eye-dev loader additionally
falls back to the default configuration when the file is missing. -/
theorem config_errors_terminate_process :
    eyes_load_config FileReadResult.unreadable = Except.error 1 ∧
    eyes_load_config FileReadResult.missing = Except.error 1 ∧
    load_config FileReadResult.unreadable [] = Except.error 1 ∧
    init_screen ScreenInitResult.failure = Except.error 1 :=
  ⟨rfl, rfl, rfl, rfl⟩

/-- Claim C3 (amended): only the stats refresh is pure catch-and-log — a
failure leaves the cache as it was and execution continues.  Configuration
loading and screen initialization catch, log, and then terminate the process
with exit status 1, except that the eye-dev loader falls back to the default
configuration when the file is merely missing. -/
theorem error_handling_disposition (s : StatsCache) (d : List (String × TomlVal)) :
    update_stats failingStatsEnv s = s ∧
    load_config FileReadResult.missing d = Except.ok d ∧
    load_config FileReadResult.unreadable d = Except.error 1 ∧
    eyes_load_config FileReadResult.unreadable = Except.error 1 ∧
    eyes_load_config FileReadResult.missing = Except.error 1 ∧
    init_screen ScreenInitResult.failure = Except.error 1 :=
  ⟨rfl, rfl, rfl, rfl, rfl, rfl⟩

/-! ## Claim C9 : eye dimensions are clamped to at least 2 -/

/-- Claim C9: for every offset, blink height and curious scaling, the four
eye dimensions `draw_eyes` uses for the rectangles — left/right width and
left/right height — are clamped to at least 2 pixels before drawing: no
frame is rendered with a zero or negative eye dimension, even when the
curious effect shrinks an eye. -/
theorem eyeDims_at_least_two (cfg : EyesConfig) (offsetX : Int)
    (blinkHeightLeft blinkHeightRight : Option Int) (curious : Bool) :
    2 ≤ (eyeDims cfg offsetX blinkHeightLeft blinkHeightRight curious).1 ∧
    2 ≤ (eyeDims cfg offsetX blinkHeightLeft blinkHeightRight curious).2.1 ∧
    2 ≤ (eyeDims cfg offsetX blinkHeightLeft blinkHeightRight curious).2.2.1 ∧
    2 ≤ (eyeDims cfg offsetX blinkHeightLeft blinkHeightRight curious).2.2.2 := by
  unfold eyeDims clampDims
  exact ⟨le_max_left _ _, le_max_left _ _, le_max_left _ _, le_max_left _ _⟩

/-! ## Claim C4 : blink completion restores the configured heights -/

/-- If the blink loop for both eyes exits, the heights at the break equal the
configured original heights: the opening phase clamps each height at its
original value before the break test. -/
theorem blinkLoop_both_result (mv origL origR : Int) :
    ∀ fuel dir bl br out,
      blinkLoop mv origL origR "both" fuel dir bl br = some out →
      out = (origL, origR) := by
  intro fuel
  induction fuel with
  | zero =>
    intro dir bl br out h
    exact absurd h (by simp [blinkLoop])
  | succ n ih =>
    intro dir bl br out h
    simp only [blinkLoop, both_targets_left, both_targets_right, both_ne_left,
      both_ne_right, if_true, true_and, false_and, if_false, ite_true,
      ite_false] at h
    by_cases hdirClose : dir = -1
    · rw [if_pos hdirClose] at h
      exact ih _ _ _ _ h
    · rw [if_neg hdirClose] at h
      by_cases hdirOpen : dir = 1
      · rw [if_pos hdirOpen] at h
        by_cases hdl : origL ≤ bl + mv
        · rw [if_pos hdl] at h
          by_cases hdr : origR ≤ br + mv
          · rw [if_pos hdr, if_pos ⟨le_refl origL, le_refl origR⟩] at h
            injection h with h
            exact h.symm
          · rw [if_neg hdr, if_neg (fun hc => hdr hc.2)] at h
            exact ih _ _ _ _ h
        · rw [if_neg hdl] at h
          by_cases hdr : origR ≤ br + mv
          · rw [if_pos hdr, if_neg (fun hc => hdl hc.1)] at h
            exact ih _ _ _ _ h
          · rw [if_neg hdr, if_neg (fun hc => hdl hc.1)] at h
            exact ih _ _ _ _ h
      · rw [if_neg hdirOpen] at h
        exact ih _ _ _ _ h

/-- When an `on_idle` iteration ends a blink (the `blinking` flag goes from
true to false) the heights have just been reset to the configured originals:
eyes.py lines 170-173 assign them in the same branch that clears the flag. -/
theorem onIdleStep_blink_end (origL origR : ℚ) (randTX randTY : Int)
    (randBlink : Bool) (s : IdleState) (hb : s.blinking = true)
    (hdone : (onIdleStep origL origR randTX randTY randBlink s).blinking = false) :
    (onIdleStep origL origR randTX randTY randBlink s).blinkHeightLeft = origL ∧
    (onIdleStep origL origR randTX randTY randBlink s).blinkHeightRight = origR := by
  simp only [onIdleStep, hb, if_true, ite_true] at hdone ⊢
  split_ifs at hdone ⊢ <;> simp_all

/-- Claim C4: when a blink animation for both eyes completes, the final blink
heights equal the configured original eye heights, and the final frame after
the loop is drawn at exactly those heights (eye-dev/eyes.py lines 336-420);
likewise, when the idle-animation blink of eyes.py ends (`blinking` returns
to false), both heights have been reset to their original configured values
(eyes.py lines 164-177). -/
theorem blink_completion_restores_heights (cfg : EyesConfig) (mv : Int)
    (fuel : Nat) (dir bl br : Int) (out : Int × Int)
    (hloop : blinkLoop mv cfg.left.height cfg.right.height "both" fuel dir bl br
      = some out)
    (origL origR : ℚ) (randTX randTY : Int) (randBlink : Bool) (s : IdleState)
    (hblinking : s.blinking = true)
    (hdone : (onIdleStep origL origR randTX randTY randBlink s).blinking = false) :
    out = (cfg.left.height, cfg.right.height) ∧
    blinkFinalFrameHeights cfg = (cfg.left.height, cfg.right.height) ∧
    (onIdleStep origL origR randTX randTY randBlink s).blinkHeightLeft = origL ∧
    (onIdleStep origL origR randTX randTY randBlink s).blinkHeightRight = origR :=
  ⟨blinkLoop_both_result mv cfg.left.height cfg.right.height fuel dir bl br out hloop,
   rfl,
   (onIdleStep_blink_end origL origR randTX randTY randBlink s hblinking hdone).1,
   (onIdleStep_blink_end origL origR randTX randTY randBlink s hblinking hdone).2⟩

/-- Witness for C4: a blink of the default 36x36 eyes at medium speed (8
px/frame) completes within 20 iterations at exactly (36, 36), and one idle
step from heights (35, 35) while opening ends the blink with the heights
reset to 36. -/
theorem blink_completion_restores_heights_witness :
    (blinkLoop 8 defaultRenderConfig.left.height defaultRenderConfig.right.height
        "both" 20 (-1) 36 36 = some (36, 36)) ∧
    idleWitnessState.blinking = true ∧
    ((onIdleStep 36 36 0 0 false idleWitnessState).blinking = false) ∧
    ((36, 36) : Int × Int) =
      (defaultRenderConfig.left.height, defaultRenderConfig.right.height) ∧
    (onIdleStep 36 36 0 0 false idleWitnessState).blinkHeightLeft = 36 := by
  have hloop : blinkLoop 8 defaultRenderConfig.left.height
      defaultRenderConfig.right.height "both" 20 (-1) 36 36 = some (36, 36) := by
    decide
  have hdone : (onIdleStep 36 36 0 0 false idleWitnessState).blinking = false := by
    norm_num [onIdleStep, idleWitnessState]
  have h := blink_completion_restores_heights defaultRenderConfig 8 20 (-1) 36 36
    (36, 36) hloop 36 36 0 0 false idleWitnessState rfl hdone
  exact ⟨hloop, rfl, hdone, h.1, h.2.2.1⟩

/-! ## Claim C8 : look targets respect the constraints; eyes stay on screen -/

/-- Claim C8: for every direction string accepted by `look` (the eight
cardinal directions, anything else selecting the centre), the target offsets
it selects lie within the bounds returned by `get_constraints` — provided the
current offsets (reused for the unconstrained axis) and the centre lie within
those bounds; and for every offset pair within those bounds, with curious
mode off and full blink heights, both eye rectangles computed by `draw_eyes`
lie entirely within the screen area `[0, width] x [0, height]` (for a
configuration with nonnegative eye distance and eye sizes of at least 2, so
the `max(2, _)` clamps are inactive). -/
theorem look_targets_and_rects_on_screen (cfg : EyesConfig) (direction : String)
    (cx cy ox oy : Int)
    (hdist : 0 ≤ cfg.distance)
    (hlw : 2 ≤ cfg.left.width) (hrw : 2 ≤ cfg.right.width)
    (hlh : 2 ≤ cfg.left.height) (hrh : 2 ≤ cfg.right.height)
    (hcur : withinConstraints (get_constraints cfg) cx cy)
    (hcenter : withinConstraints (get_constraints cfg) 0 0)
    (hoff : withinConstraints (get_constraints cfg) ox oy) :
    withinConstraints (get_constraints cfg)
      (lookTarget cfg direction cx cy).1 (lookTarget cfg direction cx cy).2 ∧
    rectOnScreen cfg (drawEyesRects cfg ox oy none none false).1 ∧
    rectOnScreen cfg (drawEyesRects cfg ox oy none none false).2 := by
  simp only [withinConstraints, get_constraints] at hcur hcenter hoff
  refine ⟨?_, ?_, ?_⟩
  · simp only [lookTarget, get_constraints, withinConstraints]
    split_ifs <;> dsimp only <;> omega
  · simp only [drawEyesRects, eyeDims, clampDims, Option.getD, rectOnScreen,
      leftEyeRect, Bool.false_eq_true, if_false, ite_false]
    omega
  · simp only [drawEyesRects, eyeDims, clampDims, Option.getD, rectOnScreen,
      rightEyeRect, Bool.false_eq_true, if_false, ite_false]
    omega

/-- Witness for C8: the default 128x64 configuration (bounds x in [-23, 23],
y in [-14, 14]), direction "TL" from the centre, and the extreme offset
(23, -14). -/
theorem look_targets_and_rects_on_screen_witness :
    (0 : Int) ≤ defaultRenderConfig.distance ∧
    (2 : Int) ≤ defaultRenderConfig.left.width ∧
    (2 : Int) ≤ defaultRenderConfig.right.width ∧
    (2 : Int) ≤ defaultRenderConfig.left.height ∧
    (2 : Int) ≤ defaultRenderConfig.right.height ∧
    withinConstraints (get_constraints defaultRenderConfig) 0 0 ∧
    withinConstraints (get_constraints defaultRenderConfig) 23 (-14) ∧
    withinConstraints (get_constraints defaultRenderConfig)
      (lookTarget defaultRenderConfig "TL" 0 0).1
      (lookTarget defaultRenderConfig "TL" 0 0).2 ∧
    rectOnScreen defaultRenderConfig
      (drawEyesRects defaultRenderConfig 23 (-14) none none false).1 ∧
    rectOnScreen defaultRenderConfig
      (drawEyesRects defaultRenderConfig 23 (-14) none none false).2 := by
  have h := look_targets_and_rects_on_screen defaultRenderConfig "TL" 0 0 23 (-14)
    (by decide) (by decide) (by decide) (by decide) (by decide)
    (by decide) (by decide) (by decide)
  exact ⟨by decide, by decide, by decide, by decide, by decide, by decide,
    by decide, h.1, h.2.1, h.2.2⟩

/-! ## Claim C5 : the OLED stats update tick -/

/-- Claim C5: on each `on_ui_update` call of the active OLED stats plugin, if
at least `screen_update_interval` (5 seconds) elapsed since the last update,
the stats cache is refreshed, the screen index advances by exactly one modulo
4 and the IP index by one modulo the number of cached IP addresses (the list
just refreshed); if fewer than 5 seconds elapsed, the screen index, the stats
cache and both display images are left unchanged. -/
theorem on_ui_update_tick (inp : UiInput) (s : OledState)
    (hactive : s.active = true) :
    (screenUpdateInterval ≤ inp.now - s.lastUpdate →
      (on_ui_update inp s).1.stats = update_stats inp.env s.stats ∧
      (on_ui_update inp s).1.screenIndex = (s.screenIndex + 1) % 4 ∧
      (on_ui_update inp s).1.ipIndex =
        (s.ipIndex + 1) % (update_stats inp.env s.stats).ipAddresses.length ∧
      (on_ui_update inp s).1.lastUpdate = inp.now) ∧
    (inp.now - s.lastUpdate < screenUpdateInterval →
      (on_ui_update inp s).1.screenIndex = s.screenIndex ∧
      (on_ui_update inp s).1.stats = s.stats ∧
      (on_ui_update inp s).1.image1 = s.image1 ∧
      (on_ui_update inp s).1.image2 = s.image2) := by
  refine ⟨fun h => ?_, fun h => ?_⟩
  · simp [on_ui_update, hactive, h]
  · simp [on_ui_update, hactive, not_le.mpr h]

/-- Witness for C5: the post-`__init__` state (last update at 0) receiving an
update at time 10 advances the screen index to 1 and stamps the time. -/
theorem on_ui_update_tick_witness :
    sampleOledState.active = true ∧
    screenUpdateInterval ≤ sampleUiInput.now - sampleOledState.lastUpdate ∧
    (on_ui_update sampleUiInput sampleOledState).1.screenIndex = (0 + 1) % 4 ∧
    (on_ui_update sampleUiInput sampleOledState).1.lastUpdate = 10 := by
  have helapsed : screenUpdateInterval ≤ sampleUiInput.now - sampleOledState.lastUpdate := by
    norm_num [screenUpdateInterval, sampleUiInput, sampleOledState]
  have h := (on_ui_update_tick sampleUiInput sampleOledState rfl).1 helapsed
  exact ⟨rfl, helapsed, h.2.1, h.2.2.2⟩

/-! ## Claim C6 : GFX HAT long/short press dispatch -/

/-- Claim C6: for every touch-button release event with both commands
configured and non-empty and a recorded press timestamp for that button, the
long-press command is dispatched exactly when the elapsed time since the
recorded press is at least 1.0 second, and the short-press command exactly
otherwise (the LED is turned off in either case). -/
theorem on_touch_event_release_dispatch (holdTimes : List (String × ℚ))
    (now pressT : ℚ) (buttonIndex : Nat) (buttonName shortCmd longCmd : String)
    (hrec : holdTimes.lookup buttonName = some pressT)
    (hshort : shortCmd ≠ "") (hlong : longCmd ≠ "") :
    (on_touch_event holdTimes now buttonIndex buttonName "release"
        (some shortCmd) (some longCmd)).2 =
      if (1 : ℚ) ≤ now - pressT
      then [TouchAction.setLed buttonIndex 0, TouchAction.run longCmd]
      else [TouchAction.setLed buttonIndex 0, TouchAction.run shortCmd] := by
  simp only [on_touch_event, hrec, Option.getD_some, runcommand]
  rw [if_neg (by decide : ¬ (("release" : String) = "press")), if_pos trivial,
    if_neg hlong, if_neg hshort]
  split_ifs <;> rfl

/-- Witness for C6: button "bt" pressed at time 10 and released at time 12
(elapsed 2 seconds) dispatches the long-press command. -/
theorem on_touch_event_release_dispatch_witness :
    ([("bt", (10 : ℚ))].lookup "bt" = some 10) ∧
    ("s" : String) ≠ "" ∧ ("l" : String) ≠ "" ∧
    (on_touch_event [("bt", 10)] 12 0 "bt" "release" (some "s") (some "l")).2 =
      (if (1 : ℚ) ≤ 12 - 10
       then [TouchAction.setLed 0 0, TouchAction.run "l"]
       else [TouchAction.setLed 0 0, TouchAction.run "s"]) := by
  refine ⟨rfl, by decide, by decide, ?_⟩
  exact on_touch_event_release_dispatch [("bt", 10)] 12 10 0 "bt" "s" "l" rfl
    (by decide) (by decide)

/-! ## Claim C7 : unloading deactivates the plugin for good -/

/-- Claim C7: after `on_unload`, the `active` flag is false; every subsequent
`on_ui_update` call returns immediately — the state (the drawing buffers
included) is unchanged and nothing is sent to the displays — and the flag
therefore stays false across any sequence of further calls.  The same holds
for the v2 plugin. -/
theorem on_unload_deactivates (s : OledState) (s2 : V2State) :
    (on_unload s).1.active = false ∧
    (∀ inp : UiInput, on_ui_update inp (on_unload s).1 = ((on_unload s).1, [])) ∧
    (∀ inps : List UiInput,
      inps.foldl (fun st inp => (on_ui_update inp st).1) (on_unload s).1 =
        (on_unload s).1) ∧
    (v2_on_unload s2).1.active = false ∧
    (∀ env : V2Env,
      v2_on_ui_update env (v2_on_unload s2).1 = ((v2_on_unload s2).1, [], none)) := by
  have hstep : ∀ inp : UiInput,
      on_ui_update inp (on_unload s).1 = ((on_unload s).1, []) := by
    intro inp
    simp [on_ui_update, on_unload]
  refine ⟨rfl, hstep, ?_, rfl, fun env => by simp [v2_on_ui_update, v2_on_unload]⟩
  intro inps
  induction inps with
  | nil => rfl
  | cons i t ih => simp only [List.foldl_cons, hstep, ih]

/-! ## Claim C10 : `load_config` merge semantics -/

/-- `lookup` over an append: the left list wins. -/
theorem lookup_append {α : Type} (l1 l2 : List (String × α)) (k : String) :
    (l1 ++ l2).lookup k = (l1.lookup k).or (l2.lookup k) := by
  induction l1 with
  | nil => simp [List.lookup, Option.or]
  | cons p t ih =>
    cases p with
    | mk pk pv =>
      by_cases h : k = pk
      · subst h
        simp [List.lookup, Option.or]
      · have hb : (k == pk) = false := beq_eq_false_iff_ne.mpr h
        simp [List.lookup, hb, ih]

/-- `lookup` over the overriding map of `pyDictMerge`: a key of `d` resolves
to the value from `c` when `c` has it, else to the value from `d`. -/
theorem lookup_map_override {α : Type} (d c : List (String × α)) (k : String) :
    (d.map (fun p => match c.lookup p.1 with
      | some v => (p.1, v)
      | none => p)).lookup k =
    match d.lookup k with
    | none => none
    | some w => (c.lookup k).or (some w) := by
  induction d with
  | nil => rfl
  | cons p t ih =>
    cases p with
    | mk pk pv =>
      by_cases h : k = pk
      · subst h
        cases hc : c.lookup k <;> simp [List.lookup, hc, Option.or]
      · have hb : (k == pk) = false := beq_eq_false_iff_ne.mpr h
        cases hc : c.lookup pk <;> simp [List.lookup, hb, hc, ih]

/-- `lookup` through the filter of `pyDictMerge` for a key absent from `d`:
such entries pass the filter, so the lookup is unchanged. -/
theorem lookup_filter_not_in {α : Type} (c d : List (String × α)) (k : String)
    (h : d.lookup k = none) :
    (c.filter (fun q => (d.lookup q.1).isNone)).lookup k = c.lookup k := by
  induction c with
  | nil => rfl
  | cons q t ih =>
    cases q with
    | mk qk qv =>
      by_cases hk : k = qk
      · subst hk
        simp [List.filter, List.lookup, h, ih]
      · have hb : (k == qk) = false := beq_eq_false_iff_ne.mpr hk
        cases hp : (d.lookup qk).isNone <;>
          simp [List.filter, List.lookup, hb, hp, ih]

/-- The lookup semantics of the Python shallow merge `{**d, **c}`: the value
from `c` when present, otherwise the value from `d`. -/
theorem lookup_pyDictMerge {α : Type} (d c : List (String × α)) (k : String) :
    (pyDictMerge d c).lookup k = (c.lookup k).or (d.lookup k) := by
  unfold pyDictMerge
  rw [lookup_append, lookup_map_override]
  cases hd : d.lookup k with
  | some w => cases hc : c.lookup k <;> simp [hc, Option.or]
  | none =>
    rw [lookup_filter_not_in c d k hd]
    cases hc : c.lookup k <;> simp [Option.or]

/-- Claim C10: `load_config(file_path, default_config)` returns the default
configuration unchanged when the file is missing; otherwise it returns the
shallow merge `{**default_config, **config}`, in which a top-level key
present in the loaded file completely replaces the corresponding default
value — the lookup yields exactly the loaded value, a whole table at once,
so default keys nested inside a replaced table are not preserved — while
keys absent from the loaded file keep their default values. -/
theorem load_config_shallow_merge (d c : List (String × TomlVal)) (k : String)
    (v : TomlVal) :
    load_config FileReadResult.missing d = Except.ok d ∧
    load_config (FileReadResult.ok c) d = Except.ok (pyDictMerge d c) ∧
    (c.lookup k = some v → (pyDictMerge d c).lookup k = some v) ∧
    (c.lookup k = none → (pyDictMerge d c).lookup k = d.lookup k) := by
  refine ⟨rfl, rfl, fun h => ?_, fun h => ?_⟩ <;>
    rw [lookup_pyDictMerge, h] <;> rfl

/-- Witness for C10: a default config whose `screen` table has keys `type`
and `width`, merged with a loaded config whose `screen` table has only
`type`: the merged lookup of `screen` is exactly the loaded one-key table —
the nested `width` key of the default is gone. -/
theorem load_config_shallow_merge_witness :
    witnessLoadedCfg.lookup "screen" =
      some (TomlVal.table [("type", TomlVal.str "lcd")]) ∧
    (pyDictMerge witnessDefaultCfg witnessLoadedCfg).lookup "screen" =
      some (TomlVal.table [("type", TomlVal.str "lcd")]) ∧
    load_config FileReadResult.missing witnessDefaultCfg =
      Except.ok witnessDefaultCfg :=
  ⟨rfl,
   (load_config_shallow_merge witnessDefaultCfg witnessLoadedCfg "screen"
      (TomlVal.table [("type", TomlVal.str "lcd")])).2.2.1 rfl,
   (load_config_shallow_merge witnessDefaultCfg witnessLoadedCfg "screen"
      (TomlVal.table [("type", TomlVal.str "lcd")])).1⟩
